import Mathlib

/-!
Shallow embedding of the esri-app-finder-demo repository (TypeScript/JavaScript)
and verification of its specification claims.

The embedded code:
* `src/backend/dist/functions/chat.js` — `chatHandler`
* the Azure function `livingAtlasSearchHandler` (TypeScript source)
* `src/frontend/src/data/mockData.ts` — `mockApps`, `mockDatasets`
* `src/frontend/src/components/atlas/LivingAtlasSearch.tsx` — `handleSearch`
* the Zustand store `useAppStore` (appStore with dedup in `addDataset`)

JSON response bodies are embedded as a small JSON value type so that the
presence and absence of fields in the handlers' literal payloads can be
stated faithfully.  Nondeterministic ambient inputs of the handlers
(`new Date().toISOString()`, `Date.now()`) are passed as explicit
parameters.
-/

namespace EsriAppFinder

/-- JSON values, as produced by the handlers (numbers as rationals). -/
inductive Json where
  | null : Json
  | bool : Bool → Json
  | num : ℚ → Json
  | str : String → Json
  | arr : List Json → Json
  | obj : List (String × Json) → Json

/-- Field lookup in a JSON object (first match), `none` on non-objects. -/
def Json.lookup (j : Json) (key : String) : Option Json :=
  match j with
  | .obj fields => fields.lookup key
  | _ => none

/-- Lookup of a field of the nested `error` object of an error body. -/
def Json.errorField (j : Json) (key : String) : Option Json :=
  match j.lookup "error" with
  | some e => e.lookup key
  | none => none

/-- Remove one top-level field from a JSON object (used to compare response
bodies up to a single field). -/
def Json.eraseField (j : Json) (key : String) : Json :=
  match j with
  | .obj fields => .obj (fields.filter (fun p => p.1 != key))
  | _ => j

/-- An Azure Functions HTTP response: status code plus JSON body. -/
structure HttpResponse where
  status : Nat
  jsonBody : Json

/-! ## Backend chat function (`src/backend/dist/functions/chat.js`) -/

/-- The parsed JSON body of a chat request: `{ message, sessionId, context }`.
`message` is `none` when the field is absent; `context.selectedDatasets`
is reduced to the dataset-id list (the handler never reads it). -/
structure ChatRequestBody where
  message : Option String
  sessionId : Option String
  context : Option (List String)

/-- Error body of the chat validation branch (chat.js lines 8–17):
`{ error: { code: "INVALID_REQUEST", message: "Message is required", timestamp } }`. -/
def chatValidationErrorBody (now : String) : Json :=
  .obj [("error", .obj [
    ("code", .str "INVALID_REQUEST"),
    ("message", .str "Message is required"),
    ("timestamp", .str now)])]

/-- Error body of the chat catch-all branch (chat.js lines 58–67):
`{ error: { code: "INTERNAL_ERROR", ... , timestamp } }`. -/
def chatInternalErrorBody (now : String) : Json :=
  .obj [("error", .obj [
    ("code", .str "INTERNAL_ERROR"),
    ("message", .str "An error occurred processing your request"),
    ("timestamp", .str now)])]

/-- The single hardcoded recommendation of the chat mock response
(chat.js lines 27–38). -/
def chatRecommendation : Json :=
  .obj [
    ("id", .str "instant-apps-map-viewer"),
    ("name", .str "Instant Apps - Map Viewer"),
    ("description", .str "Create an interactive map viewer with filtering and search capabilities"),
    ("category", .str "instant-apps"),
    ("relevanceScore", .num 0.95),
    ("reasoning", .str "Based on your requirements, this app provides the best fit for interactive data visualization."),
    ("capabilities", .arr [.str "Interactive mapping", .str "Filtering", .str "Search", .str "Mobile responsive"]),
    ("thumbnailUrl", .str "https://www.esri.com/content/dam/esrisites/en-us/common/icons/product-logos/ArcGIS-Instant-Apps.png"),
    ("documentationUrl", .str "https://doc.arcgis.com/en/instant-apps/"),
    ("templateId", .str "instant-apps-basic-viewer")]

/-- The mock chat success body (chat.js lines 21–47).  `nowMs` stands for
`Date.now()` in the message id, `now` for `new Date().toISOString()`. -/
def chatSuccessBody (message : String) (nowMs : Nat) (now : String) : Json :=
  .obj [
    ("messageId", .str ("msg_" ++ toString nowMs)),
    ("role", .str "assistant"),
    ("content", .str ("I received your message: \"" ++ message ++ "\". Azure OpenAI integration will be implemented next.")),
    ("timestamp", .str now),
    ("recommendations", .arr [chatRecommendation]),
    ("suggestedActions", .arr [.obj [
      ("type", .str "create-map"),
      ("label", .str "Create web map"),
      ("description", .str "Set up a web map with your data")]])]

/-- `chatHandler` (chat.js lines 2–69) after a successful `request.json()`:
`if (!message)` → 400, otherwise the 200 mock response.  A missing
`message` and the empty string are both falsy in the source. -/
def chatHandler (body : ChatRequestBody) (nowMs : Nat) (now : String) : HttpResponse :=
  match body.message with
  | none => ⟨400, chatValidationErrorBody now⟩
  | some m =>
    if m = "" then ⟨400, chatValidationErrorBody now⟩
    else ⟨200, chatSuccessBody m nowMs now⟩

/-- The whole chat function including the `try`/`catch`: `none` stands for a
body on which `request.json()` (or anything else in the `try`) throws,
which the catch-all maps to the 500 internal-error response. -/
def chatEndpoint (parsed : Option ChatRequestBody) (nowMs : Nat) (now : String) : HttpResponse :=
  match parsed with
  | none => ⟨500, chatInternalErrorBody now⟩
  | some body => chatHandler body nowMs now

/-! ## Backend Living Atlas search function (TypeScript source) -/

/-- The query string of `GET /api/living-atlas/search`.  `offset` and
`sortBy` may be present in the URL, but the handler only ever reads
`q`, `category` and `limit`. -/
structure SearchQueryParams where
  q : Option String
  category : Option String
  limit : Option String
  offset : Option String

/-- Error body of the search validation branch:
`{ error: { code: "INVALID_REQUEST", message: "Query must be at least 3 characters", timestamp } }`. -/
def searchValidationErrorBody (now : String) : Json :=
  .obj [("error", .obj [
    ("code", .str "INVALID_REQUEST"),
    ("message", .str "Query must be at least 3 characters"),
    ("timestamp", .str now)])]

/-- Error body of the search catch-all branch. -/
def searchInternalErrorBody (now : String) : Json :=
  .obj [("error", .obj [
    ("code", .str "INTERNAL_ERROR"),
    ("message", .str "An error occurred processing your search"),
    ("timestamp", .str now)])]

/-- The single fabricated search result of the mock response; `created` and
`modified` are the fixed dates `new Date('2023-01-01')` / `new Date('2025-01-01')`
rendered by `toISOString()`. -/
def searchMockResult (query : String) : Json :=
  .obj [
    ("id", .str "dataset-1"),
    ("title", .str (query ++ " Dataset Example")),
    ("description", .str "This is a mock dataset result. ESRI Living Atlas integration will be implemented next."),
    ("url", .str "https://services.arcgis.com/example/FeatureServer/0"),
    ("type", .str "feature-layer"),
    ("thumbnailUrl", .str "https://www.esri.com/content/dam/esrisites/en-us/common/icons/product-logos/ArcGIS-Living-Atlas.png"),
    ("categories", .arr [.str "Demographics"]),
    ("tags", .arr [.str query, .str "example"]),
    ("extent", .obj [
      ("xmin", .num (-180)),
      ("ymin", .num (-90)),
      ("xmax", .num 180),
      ("ymax", .num 90),
      ("spatialReference", .obj [("wkid", .num 4326)])]),
    ("owner", .str "esri_living_atlas"),
    ("created", .str "2023-01-01T00:00:00.000Z"),
    ("modified", .str "2025-01-01T00:00:00.000Z")]

/-- The mock search success body `{ query, total: 2, results: [ ... ] }`. -/
def searchSuccessBody (query : String) : Json :=
  .obj [
    ("query", .str query),
    ("total", .num 2),
    ("results", .arr [searchMockResult query])]

/-- `livingAtlasSearchHandler` inside the `try`: reads `q` (defaulted to the
empty string by `|| ''`), binds `category` and `limit` without ever using
them (`parseInt(... || '20')` in the source), rejects `!query || query.length < 3`
with 400, and otherwise returns the 200 mock body. -/
def livingAtlasSearchHandler (params : SearchQueryParams) (now : String) : HttpResponse :=
  let query := params.q.getD ""
  let _category := params.category
  let _limit := params.limit.getD "20"
  if query = "" ∨ query.length < 3 then
    ⟨400, searchValidationErrorBody now⟩
  else
    ⟨200, searchSuccessBody query⟩

/-- The whole search function including the `try`/`catch`: `none` stands for
an execution on which the `try` block throws. -/
def livingAtlasSearchEndpoint (parsed : Option SearchQueryParams) (now : String) : HttpResponse :=
  match parsed with
  | none => ⟨500, searchInternalErrorBody now⟩
  | some params => livingAtlasSearchHandler params now

/-! ## Frontend static data (`src/frontend/src/data/mockData.ts`) -/

/-- An app template record (`ESRIApp` in `src/frontend/src/types`). -/
structure ESRIApp where
  id : String
  name : String
  description : String
  category : String
  thumbnailUrl : String
  configUrl : String
  features : List String
  useCases : List String
  complexity : String
deriving DecidableEq

/-- A bounding box (`extent` field of a dataset). -/
structure Extent where
  xmin : ℚ
  ymin : ℚ
  xmax : ℚ
  ymax : ℚ
deriving DecidableEq

/-- A Living Atlas dataset record (`LivingAtlasDataset` in the frontend
types); the `Date` fields are kept as their source date strings. -/
structure LivingAtlasDataset where
  id : String
  title : String
  description : String
  owner : String
  type : String
  tags : List String
  thumbnailUrl : String
  itemUrl : String
  created : String
  modified : String
  extent : Extent
deriving DecidableEq

/-- The static app catalog `mockApps` (mockData.ts lines 3–26). -/
def mockApps : List ESRIApp :=
  [{ id := "instant-apps-map-viewer",
     name := "Instant Apps - Map Viewer",
     description := "Create interactive web maps with a simple, configurable interface. Perfect for sharing geographic data with stakeholders.",
     category := "viewer",
     thumbnailUrl := "https://placehold.co/256x256/0079c1/white?text=Map+Viewer",
     configUrl := "https://www.arcgis.com/apps/instant/basic/index.html",
     features := ["Interactive map viewing", "Pop-ups", "Legend", "Search", "Print"],
     useCases := ["Data exploration", "Public information sharing", "Simple dashboards"],
     complexity := "beginner" },
   { id := "story-maps",
     name := "ArcGIS StoryMaps",
     description := "Combine authoritative maps with narrative text, images, and multimedia content to tell compelling stories.",
     category := "storytelling",
     thumbnailUrl := "https://placehold.co/256x256/6e1e78/white?text=StoryMaps",
     configUrl := "https://storymaps.arcgis.com/stories/new",
     features := ["Rich multimedia", "Immersive layouts", "Map tours", "Swipe comparison"],
     useCases := ["Educational content", "Project presentations", "Community engagement"],
     complexity := "intermediate" }]

/-- First entry of `mockDatasets`. -/
def worldImagery : LivingAtlasDataset :=
  { id := "world-imagery",
    title := "World Imagery",
    description := "High-resolution satellite and aerial imagery from around the world. Provides context for mapping applications.",
    owner := "Esri",
    type := "Image Service",
    tags := ["imagery", "basemap", "satellite", "aerial"],
    thumbnailUrl := "https://placehold.co/200x200/4c9141/white?text=World+Imagery",
    itemUrl := "https://www.arcgis.com/home/item.html?id=10df2279f9684e4a9f6a7f08febac2a9",
    created := "2020-01-15",
    modified := "2024-11-01",
    extent := { xmin := -180, ymin := -90, xmax := 180, ymax := 90 } }

/-- Second entry of `mockDatasets`: the census-tract dataset. -/
def usaCensusTractBoundaries : LivingAtlasDataset :=
  { id := "usa-census-tract-boundaries",
    title := "USA Census Tract Boundaries",
    description := "Census tract boundaries for the United States. Includes demographic data and statistical information.",
    owner := "Esri Demographics",
    type := "Feature Service",
    tags := ["census", "demographics", "boundaries", "usa"],
    thumbnailUrl := "https://placehold.co/200x200/d95f02/white?text=Census+Tracts",
    itemUrl := "https://www.arcgis.com/home/item.html?id=8d2647eb6e334ef4b4f74010dc2c18c0",
    created := "2021-06-10",
    modified := "2024-10-15",
    extent := { xmin := -179.14734, ymin := 18.91619, xmax := -66.96466, ymax := 71.35776 } }

/-- Third entry of `mockDatasets`. -/
def worldCountries : LivingAtlasDataset :=
  { id := "world-countries",
    title := "World Countries",
    description := "Generalized boundaries of world countries with population and economic data.",
    owner := "Esri",
    type := "Feature Service",
    tags := ["countries", "world", "boundaries", "reference"],
    thumbnailUrl := "https://placehold.co/200x200/7570b3/white?text=World+Countries",
    itemUrl := "https://www.arcgis.com/home/item.html?id=ac80670eb213440ea5899bbf92a04998",
    created := "2019-03-20",
    modified := "2024-09-12",
    extent := { xmin := -180, ymin := -90, xmax := 180, ymax := 90 } }

/-- The static dataset catalog `mockDatasets` (mockData.ts lines 28–83). -/
def mockDatasets : List LivingAtlasDataset :=
  [worldImagery, usaCensusTractBoundaries, worldCountries]

/-! ## Frontend client-side search (`LivingAtlasSearch.tsx`) -/

/-- JavaScript `s.toLowerCase()` (the data involved is ASCII). -/
def strToLower (s : String) : String :=
  String.mk (s.toList.map Char.toLower)

/-- JavaScript `s.trim()`: strip leading and trailing whitespace. -/
def strTrim (s : String) : String :=
  String.mk (((s.toList.dropWhile Char.isWhitespace).reverse.dropWhile Char.isWhitespace).reverse)

/-- Whether `needle` is an initial segment of `hay`. -/
def charsStartWith (hay needle : List Char) : Bool :=
  match hay, needle with
  | _, [] => true
  | [], _ :: _ => false
  | c :: t, n :: nt => c == n && charsStartWith t nt

/-- Whether `needle` occurs contiguously somewhere in `hay`. -/
def charsContain (hay needle : List Char) : Bool :=
  match hay with
  | [] => charsStartWith [] needle
  | c :: t => charsStartWith (c :: t) needle || charsContain t needle

/-- JavaScript `hay.includes(needle)` on strings. -/
def jsIncludes (hay needle : String) : Bool :=
  charsContain hay.toList needle.toList

/-- The filter predicate of `handleSearch` (LivingAtlasSearch.tsx lines 16–20):
case-insensitive substring match against title, description and tags. -/
def matchesDataset (searchQuery : String) (dataset : LivingAtlasDataset) : Bool :=
  jsIncludes (strToLower dataset.title) (strToLower searchQuery) ||
  jsIncludes (strToLower dataset.description) (strToLower searchQuery) ||
  dataset.tags.any (fun tag => jsIncludes (strToLower tag) (strToLower searchQuery))

/-- `handleSearch` (LivingAtlasSearch.tsx lines 10–22) as the function from
the query to the result list it stores: a blank query resets to the full
catalog, otherwise the catalog is filtered. -/
def handleSearch (searchQuery : String) : List LivingAtlasDataset :=
  if strTrim searchQuery = "" then mockDatasets
  else mockDatasets.filter (matchesDataset searchQuery)

/-! ## Zustand store (`appStore` with dedup in `addDataset`) -/

/-- The `ActiveTab` union type of the store. -/
inductive ActiveTab where
  | chat | atlas | preview
deriving DecidableEq

/-- The state slice of `useAppStore`; `mapExtent` (`any` in the source) is
modelled as an optional extent. -/
structure StoreState where
  sidebarOpen : Bool
  activeTab : ActiveTab
  sessionId : String
  selectedApp : Option ESRIApp
  selectedDatasets : List LivingAtlasDataset
  currentWebMapId : Option String
  mapExtent : Option Extent
deriving DecidableEq

/-- `initialState` of the store; the generated session id is a parameter. -/
def storeInitialState (sessionId : String) : StoreState :=
  { sidebarOpen := true,
    activeTab := .chat,
    sessionId := sessionId,
    selectedApp := none,
    selectedDatasets := [],
    currentWebMapId := none,
    mapExtent := none }

/-- `addDataset`: appends the dataset unless one with the same id is already
selected (`state.selectedDatasets.find(d => d.id === dataset.id) ? ... : [...]`). -/
def addDataset (state : StoreState) (dataset : LivingAtlasDataset) : StoreState :=
  { state with selectedDatasets :=
      match state.selectedDatasets.find? (fun d => d.id == dataset.id) with
      | some _ => state.selectedDatasets
      | none => state.selectedDatasets ++ [dataset] }

/-- `removeDataset`: keeps the datasets whose id differs. -/
def removeDataset (state : StoreState) (datasetId : String) : StoreState :=
  { state with selectedDatasets :=
      state.selectedDatasets.filter (fun d => d.id != datasetId) }

/-- `clearDatasets`: empties the selection. -/
def clearDatasets (state : StoreState) : StoreState :=
  { state with selectedDatasets := [] }

/-- `reset`: back to the initial state with a fresh session id. -/
def resetStore (_state : StoreState) (newSessionId : String) : StoreState :=
  storeInitialState newSessionId

/-- The no-duplicate invariant on the selected datasets: no two entries share
an id. -/
def SelectedDatasetsNodup (state : StoreState) : Prop :=
  (state.selectedDatasets.map (fun d => d.id)).Nodup

instance (state : StoreState) : Decidable (SelectedDatasetsNodup state) := by
  unfold SelectedDatasetsNodup; infer_instance

/-! ## Modelled from the spec: confidence bands -/

/-- Modelled from the spec: the repository's API contract declares a
`confidence: high | medium | low` field on recommendations, and the spec
gives its derivation from the relevance score (high ≥ 0.85, medium ≥ 0.6,
else low), but no implementation of this derivation exists in the source. -/
def confidenceBand (score : ℚ) : String :=
  if 0.85 ≤ score then "high"
  else if 0.6 ≤ score then "medium"
  else "low"

/-! ## Claims -/

/-- Claim C1 (counterexample) — the claim says every error response of the
chat and search handlers carries a non-empty `suggestions` array and a
non-null `requestId`; the chat validation error response carries neither. -/
theorem chat_error_body_no_suggestions_cex :
    (chatHandler ⟨some "", none, none⟩ 0 "2025-01-01T00:00:00.000Z").status = 400
    ∧ (chatHandler ⟨some "", none, none⟩ 0 "2025-01-01T00:00:00.000Z").jsonBody.lookup "suggestions" = none
    ∧ (chatHandler ⟨some "", none, none⟩ 0 "2025-01-01T00:00:00.000Z").jsonBody.lookup "requestId" = none
    ∧ (chatHandler ⟨some "", none, none⟩ 0 "2025-01-01T00:00:00.000Z").jsonBody.errorField "suggestions" = none :=
  ⟨rfl, rfl, rfl, rfl⟩

/-- Claim C1 (amended) — every failure path of both endpoints (validation
rejection and catch-all branch) produces a body of the shape
`{ error: { code, message, timestamp } }` with no `suggestions` entry and no
`requestId`, neither at the top level nor inside `error`. -/
theorem error_responses_lack_suggestions_requestId (nowMs : Nat) (now : String) :
    chatEndpoint none nowMs now = ⟨500, chatInternalErrorBody now⟩
    ∧ livingAtlasSearchEndpoint none now = ⟨500, searchInternalErrorBody now⟩
    ∧ (chatValidationErrorBody now).lookup "suggestions" = none
    ∧ (chatValidationErrorBody now).lookup "requestId" = none
    ∧ (chatValidationErrorBody now).errorField "suggestions" = none
    ∧ (chatValidationErrorBody now).errorField "requestId" = none
    ∧ (chatInternalErrorBody now).lookup "suggestions" = none
    ∧ (chatInternalErrorBody now).lookup "requestId" = none
    ∧ (chatInternalErrorBody now).errorField "suggestions" = none
    ∧ (chatInternalErrorBody now).errorField "requestId" = none
    ∧ (searchValidationErrorBody now).lookup "suggestions" = none
    ∧ (searchValidationErrorBody now).lookup "requestId" = none
    ∧ (searchValidationErrorBody now).errorField "suggestions" = none
    ∧ (searchValidationErrorBody now).errorField "requestId" = none
    ∧ (searchInternalErrorBody now).lookup "suggestions" = none
    ∧ (searchInternalErrorBody now).lookup "requestId" = none
    ∧ (searchInternalErrorBody now).errorField "suggestions" = none
    ∧ (searchInternalErrorBody now).errorField "requestId" = none
    ∧ (chatValidationErrorBody now).errorField "timestamp" = some (.str now)
    ∧ (chatInternalErrorBody now).errorField "code" = some (.str "INTERNAL_ERROR")
    ∧ (searchInternalErrorBody now).errorField "code" = some (.str "INTERNAL_ERROR") :=
  ⟨rfl, rfl, rfl, rfl, rfl, rfl, rfl, rfl, rfl, rfl, rfl, rfl, rfl, rfl, rfl, rfl,
   rfl, rfl, rfl, rfl, rfl⟩

/-- Claim C2 (counterexample) — the request `{q: "po"}` is rejected with 400,
but with error code `INVALID_REQUEST` (not `VALIDATION_ERROR`) and with no
`details` object. -/
theorem search_short_query_code_mismatch_cex :
    (livingAtlasSearchHandler ⟨some "po", none, none, none⟩ "t").status = 400
    ∧ (livingAtlasSearchHandler ⟨some "po", none, none, none⟩ "t").jsonBody.errorField "code"
        = some (.str "INVALID_REQUEST")
    ∧ ("INVALID_REQUEST" : String) ≠ "VALIDATION_ERROR"
    ∧ (livingAtlasSearchHandler ⟨some "po", none, none, none⟩ "t").jsonBody.errorField "details" = none :=
  ⟨rfl, rfl, by decide, rfl⟩

/-- Claim C2 (amended) — every search request whose `q` is absent or shorter
than 3 characters is answered with exactly the fixed 400 validation-error
response (code `INVALID_REQUEST`, message `Query must be at least 3
characters`, no `details`); the response is that constant, so the mock
search result is not constructed. -/
theorem search_short_query_rejected (params : SearchQueryParams) (now : String)
    (h : (params.q.getD "").length < 3) :
    livingAtlasSearchHandler params now = ⟨400, searchValidationErrorBody now⟩
    ∧ (searchValidationErrorBody now).errorField "code" = some (.str "INVALID_REQUEST")
    ∧ (searchValidationErrorBody now).errorField "message"
        = some (.str "Query must be at least 3 characters")
    ∧ (searchValidationErrorBody now).errorField "details" = none := by
  have hcond : params.q.getD "" = "" ∨ (params.q.getD "").length < 3 := Or.inr h
  exact ⟨by simp [livingAtlasSearchHandler, hcond], rfl, rfl, rfl⟩

/-- Claim C2 (witness) — the amended theorem applied to the request `{q: "po"}`. -/
theorem search_short_query_rejected_witness :
    livingAtlasSearchHandler ⟨some "po", none, none, none⟩ "t" = ⟨400, searchValidationErrorBody "t"⟩ :=
  (search_short_query_rejected ⟨some "po", none, none, none⟩ "t" (by decide)).1

set_option maxRecDepth 4000 in
/-- Claim C3 (counterexample) — a 501-character message is answered with
HTTP 200 rather than rejected, and the empty-message rejection uses code
`INVALID_REQUEST` with no `details` object instead of `VALIDATION_ERROR`
with `{field: "message", length: 0}`. -/
theorem chat_long_message_accepted_cex :
    (chatHandler ⟨some (String.mk (List.replicate 501 'a')), none, none⟩ 0 "t").status = 200
    ∧ (String.mk (List.replicate 501 'a')).length = 501
    ∧ (chatHandler ⟨some "", none, none⟩ 0 "t").status = 400
    ∧ (chatHandler ⟨some "", none, none⟩ 0 "t").jsonBody.errorField "code"
        = some (.str "INVALID_REQUEST")
    ∧ ("INVALID_REQUEST" : String) ≠ "VALIDATION_ERROR"
    ∧ (chatHandler ⟨some "", none, none⟩ 0 "t").jsonBody.errorField "details" = none :=
  ⟨rfl, by simp [String.length], rfl, rfl, by decide, rfl⟩

/-- Claim C3 (amended) — the chat handler rejects only a missing or empty
`message` (with the fixed 400 body: code `INVALID_REQUEST`, message
`Message is required`, no `details`); every non-empty message, of any
length, is answered with HTTP 200. -/
theorem chat_message_validation_actual (m : String) (sid : Option String)
    (ctx : Option (List String)) (nowMs : Nat) (now : String) :
    chatHandler ⟨some "", sid, ctx⟩ nowMs now = ⟨400, chatValidationErrorBody now⟩
    ∧ chatHandler ⟨none, sid, ctx⟩ nowMs now = ⟨400, chatValidationErrorBody now⟩
    ∧ (chatValidationErrorBody now).errorField "code" = some (.str "INVALID_REQUEST")
    ∧ (chatValidationErrorBody now).errorField "message" = some (.str "Message is required")
    ∧ (chatValidationErrorBody now).errorField "details" = none
    ∧ (m ≠ "" → (chatHandler ⟨some m, sid, ctx⟩ nowMs now).status = 200) := by
  refine ⟨rfl, rfl, rfl, rfl, rfl, fun hm => ?_⟩
  simp [chatHandler, hm]

/-- Claim C3 (witness) — the amended theorem applied to the message `"hello"`. -/
theorem chat_message_validation_actual_witness :
    (chatHandler ⟨some "hello", none, none⟩ 0 "t").status = 200 :=
  (chat_message_validation_actual "hello" none none 0 "t").2.2.2.2.2 (by decide)

/-- Claim C4 (counterexample) — the 200 search response body carries no
`count`, `offset` or `categories` field, and its fixed `total` of 2 does
not equal the length 1 of `results`. -/
theorem search_success_missing_fields_cex :
    (livingAtlasSearchHandler ⟨some "census", none, some "20", some "0"⟩ "t").status = 200
    ∧ (livingAtlasSearchHandler ⟨some "census", none, some "20", some "0"⟩ "t").jsonBody.lookup "count" = none
    ∧ (livingAtlasSearchHandler ⟨some "census", none, some "20", some "0"⟩ "t").jsonBody.lookup "offset" = none
    ∧ (livingAtlasSearchHandler ⟨some "census", none, some "20", some "0"⟩ "t").jsonBody.lookup "categories" = none
    ∧ (livingAtlasSearchHandler ⟨some "census", none, some "20", some "0"⟩ "t").jsonBody.lookup "total"
        = some (.num 2)
    ∧ (livingAtlasSearchHandler ⟨some "census", none, some "20", some "0"⟩ "t").jsonBody.lookup "results"
        = some (.arr [searchMockResult "census"])
    ∧ ([searchMockResult "census"].length : ℚ) ≠ 2 :=
  ⟨rfl, rfl, rfl, rfl, rfl, rfl, by norm_num⟩

/-- Claim C4 (amended) — every successful search response body contains
exactly the fields `query`, `total` and `results`, with `total = 2` and a
single fabricated result; `count`, `offset` and `categories` are absent and
the parsed `limit` is never applied. -/
theorem search_success_body_shape (params : SearchQueryParams) (now : String)
    (h : 3 ≤ (params.q.getD "").length) :
    livingAtlasSearchHandler params now = ⟨200, searchSuccessBody (params.q.getD "")⟩
    ∧ (searchSuccessBody (params.q.getD "")).lookup "query" = some (.str (params.q.getD ""))
    ∧ (searchSuccessBody (params.q.getD "")).lookup "total" = some (.num 2)
    ∧ (searchSuccessBody (params.q.getD "")).lookup "results"
        = some (.arr [searchMockResult (params.q.getD "")])
    ∧ (searchSuccessBody (params.q.getD "")).lookup "count" = none
    ∧ (searchSuccessBody (params.q.getD "")).lookup "offset" = none
    ∧ (searchSuccessBody (params.q.getD "")).lookup "categories" = none := by
  have hcond : ¬(params.q.getD "" = "" ∨ (params.q.getD "").length < 3) := by
    rintro (he | hl)
    · rw [he] at h; simp at h
    · omega
  exact ⟨by simp [livingAtlasSearchHandler, hcond], rfl, rfl, rfl, rfl, rfl, rfl⟩

/-- Claim C4 (witness) — the amended theorem applied to the request
`{q: "census", limit: "20", offset: "0"}`. -/
theorem search_success_body_shape_witness :
    livingAtlasSearchHandler ⟨some "census", none, some "20", some "0"⟩ "t"
      = ⟨200, searchSuccessBody "census"⟩ :=
  (search_success_body_shape ⟨some "census", none, some "20", some "0"⟩ "t" (by decide)).1

/-- Claim C5 (counterexample) — the static app catalog `mockApps` holds 2 app
templates, not 12. -/
theorem mockApps_not_twelve_cex : mockApps.length = 2 ∧ (2 : ℕ) ≠ 12 :=
  ⟨rfl, by decide⟩

/-- Claim C5 (amended) — the static in-memory app catalog contains exactly 2
app templates (`instant-apps-map-viewer` and `story-maps`); it is a constant
list and no store or handler operation writes to it. -/
theorem mockApps_two_entries :
    mockApps.length = 2
    ∧ mockApps.map (fun a => a.id) = ["instant-apps-map-viewer", "story-maps"] :=
  ⟨rfl, rfl⟩

/-- Claim C6 (counterexample) — the backend search handler does not filter
the catalog: for the query `"census"` its `results` array is the single
fabricated entry titled `census Dataset Example`, so the dataset titled
`USA Census Tract Boundaries` does not appear. -/
theorem backend_search_fabricated_result_cex :
    (livingAtlasSearchHandler ⟨some "census", none, none, none⟩ "t").jsonBody.lookup "results"
      = some (.arr [searchMockResult "census"])
    ∧ (searchMockResult "census").lookup "title" = some (.str "census Dataset Example")
    ∧ ("census Dataset Example" : String) ≠ "USA Census Tract Boundaries" :=
  ⟨rfl, rfl, by decide⟩

/-- Claim C6 (amended) — the case-insensitive substring/tag filtering happens
only in the frontend client-side search over `mockDatasets`: there,
searching `"census"` returns exactly the dataset titled
`USA Census Tract Boundaries` (tagged `census`, `demographics`, ...), so it
appears with at least one result. -/
theorem frontend_census_search_matches :
    handleSearch "census" = [usaCensusTractBoundaries]
    ∧ usaCensusTractBoundaries.title = "USA Census Tract Boundaries"
    ∧ usaCensusTractBoundaries.tags = ["census", "demographics", "boundaries", "usa"]
    ∧ 1 ≤ (handleSearch "census").length
    ∧ matchesDataset "census" usaCensusTractBoundaries = true
    ∧ matchesDataset "census" worldImagery = false
    ∧ matchesDataset "census" worldCountries = false :=
  ⟨rfl, rfl, rfl, Nat.le.refl, rfl, rfl, rfl⟩

/-- Claim C7 (counterexample) — the recommendation returned by the chat
handler carries no `confidence` field at all (its score field is
`relevanceScore`), so no confidence band is derived from the score. -/
theorem chat_recommendation_no_confidence_cex :
    (chatHandler ⟨some "hello", none, none⟩ 0 "t").jsonBody.lookup "recommendations"
      = some (.arr [chatRecommendation])
    ∧ chatRecommendation.lookup "confidence" = none :=
  ⟨rfl, rfl⟩

/-- Claim C7 (amended) — the chat handler's recommendation has
`relevanceScore` 0.95 and no `confidence` field; the band derivation exists
only in the repository's API contract and the spec, and the spec-modelled
derivation satisfies the stated boundaries: 0.85 is `high`, 0.849999 is
`medium`, 0.6 is `medium`, 0.599999 is `low` (and 0.95 would be `high`). -/
theorem confidence_band_spec_model :
    chatRecommendation.lookup "confidence" = none
    ∧ chatRecommendation.lookup "relevanceScore" = some (.num 0.95)
    ∧ confidenceBand 0.85 = "high"
    ∧ confidenceBand 0.849999 = "medium"
    ∧ confidenceBand 0.6 = "medium"
    ∧ confidenceBand 0.599999 = "low"
    ∧ confidenceBand 0.95 = "high" := by
  refine ⟨rfl, rfl, ?_, ?_, ?_, ?_, ?_⟩ <;> · simp only [confidenceBand]; norm_num

/-- Claim C8 — the search operation is deterministic in its results: two
requests with the same `q`, `limit` and `offset` (whatever the ambient
timestamps) produce identical `results` arrays in identical order. -/
theorem search_results_deterministic (p1 p2 : SearchQueryParams) (now1 now2 : String)
    (hq : p1.q = p2.q) (hl : p1.limit = p2.limit) (ho : p1.offset = p2.offset) :
    (livingAtlasSearchHandler p1 now1).jsonBody.lookup "results"
      = (livingAtlasSearchHandler p2 now2).jsonBody.lookup "results" := by
  simp only [livingAtlasSearchHandler, hq]
  split_ifs <;> rfl

/-- Claim C8 (witness) — the theorem applied to two identical
`{q: "census", limit: "20", offset: "0"}` requests at different times. -/
theorem search_results_deterministic_witness :
    (livingAtlasSearchHandler ⟨some "census", none, some "20", some "0"⟩ "a").jsonBody.lookup "results"
      = (livingAtlasSearchHandler ⟨some "census", none, some "20", some "0"⟩ "b").jsonBody.lookup "results" :=
  search_results_deterministic ⟨some "census", none, some "20", some "0"⟩
    ⟨some "census", none, some "20", some "0"⟩ "a" "b" rfl rfl rfl

/-- Claim C9 — the store's `selectedDatasets` never holds two entries with
the same id: `addDataset` is a no-op when the id is already selected, and
`addDataset`, `removeDataset`, `clearDatasets` and `reset` all preserve the
no-duplicate invariant. -/
theorem store_selected_datasets_nodup :
    (∀ (s : StoreState) (d : LivingAtlasDataset),
        (∃ d0 ∈ s.selectedDatasets, d0.id = d.id) → addDataset s d = s)
    ∧ (∀ (s : StoreState) (d : LivingAtlasDataset),
        SelectedDatasetsNodup s → SelectedDatasetsNodup (addDataset s d))
    ∧ (∀ (s : StoreState) (i : String),
        SelectedDatasetsNodup s → SelectedDatasetsNodup (removeDataset s i))
    ∧ (∀ s : StoreState, SelectedDatasetsNodup (clearDatasets s))
    ∧ (∀ (s : StoreState) (sid : String), SelectedDatasetsNodup (resetStore s sid)) := by
  refine ⟨?_, ?_, ?_, ?_, ?_⟩
  · rintro s d ⟨d0, hmem, hid⟩
    unfold addDataset
    cases hfind : s.selectedDatasets.find? (fun x => x.id == d.id) with
    | some x => rfl
    | none =>
      exact absurd (beq_iff_eq.mpr hid) (List.find?_eq_none.mp hfind d0 hmem)
  · intro s d hnodup
    unfold SelectedDatasetsNodup addDataset at *
    cases hfind : s.selectedDatasets.find? (fun x => x.id == d.id) with
    | some x => exact hnodup
    | none =>
      have hnotin : d.id ∉ s.selectedDatasets.map (fun x => x.id) := by
        intro hin
        obtain ⟨a, ha, haeq⟩ := List.mem_map.mp hin
        exact List.find?_eq_none.mp hfind a ha (beq_iff_eq.mpr haeq)
      simp only [List.map_append, List.map_cons, List.map_nil]
      rw [List.nodup_append]
      exact ⟨hnodup, List.nodup_singleton _, by
        intro x hx hy
        rw [List.mem_singleton.mp hy] at hx
        exact hnotin hx⟩
  · intro s i hnodup
    unfold SelectedDatasetsNodup removeDataset at *
    exact List.Nodup.sublist (List.Sublist.map _ (List.filter_sublist _)) hnodup
  · intro s
    simp [SelectedDatasetsNodup, clearDatasets]
  · intro s sid
    simp [SelectedDatasetsNodup, resetStore, storeInitialState]

/-- Claim C9 (witness) — the theorem applied to concrete states: adding an
already-selected dataset is a no-op, and adding to the fresh store keeps
the invariant. -/
theorem store_selected_datasets_nodup_witness :
    addDataset ⟨true, .chat, "s", none, [worldImagery], none, none⟩ worldImagery
      = ⟨true, .chat, "s", none, [worldImagery], none, none⟩
    ∧ SelectedDatasetsNodup (addDataset (storeInitialState "s") worldImagery) :=
  ⟨store_selected_datasets_nodup.1 ⟨true, .chat, "s", none, [worldImagery], none, none⟩
      worldImagery ⟨worldImagery, by simp, rfl⟩,
   store_selected_datasets_nodup.2.1 (storeInitialState "s") worldImagery (by decide)⟩

/-- Claim C10 — for every chat request with a non-empty `message`, the
handler answers 200 with exactly one recommendation of `relevanceScore`
0.95, the message is echoed in `content`, and the body is independent of
the message everywhere outside the `content` field. -/
theorem chat_mock_response_uniform (m : String) (hm : m ≠ "") (sid : Option String)
    (ctx : Option (List String)) (nowMs : Nat) (now : String) :
    (chatHandler ⟨some m, sid, ctx⟩ nowMs now).status = 200
    ∧ (chatHandler ⟨some m, sid, ctx⟩ nowMs now).jsonBody.lookup "recommendations"
        = some (.arr [chatRecommendation])
    ∧ chatRecommendation.lookup "relevanceScore" = some (.num 0.95)
    ∧ (chatHandler ⟨some m, sid, ctx⟩ nowMs now).jsonBody.lookup "content"
        = some (.str ("I received your message: \"" ++ m ++ "\". Azure OpenAI integration will be implemented next."))
    ∧ (∀ m2 : String, m2 ≠ "" →
        ((chatHandler ⟨some m, sid, ctx⟩ nowMs now).jsonBody.eraseField "content")
          = ((chatHandler ⟨some m2, sid, ctx⟩ nowMs now).jsonBody.eraseField "content")) := by
  have h1 : chatHandler ⟨some m, sid, ctx⟩ nowMs now = ⟨200, chatSuccessBody m nowMs now⟩ := by
    simp [chatHandler, hm]
  refine ⟨by rw [h1], by rw [h1]; rfl, rfl, by rw [h1]; rfl, fun m2 hm2 => ?_⟩
  have h2 : chatHandler ⟨some m2, sid, ctx⟩ nowMs now = ⟨200, chatSuccessBody m2 nowMs now⟩ := by
    simp [chatHandler, hm2]
  rw [h1, h2]
  rfl

/-- Claim C10 (witness) — the theorem applied to the message `"hello"`. -/
theorem chat_mock_response_uniform_witness :
    (chatHandler ⟨some "hello", none, none⟩ 0 "t").status = 200
    ∧ (chatHandler ⟨some "hello", none, none⟩ 0 "t").jsonBody.lookup "recommendations"
        = some (.arr [chatRecommendation]) :=
  ⟨(chat_mock_response_uniform "hello" (by decide) none none 0 "t").1,
   (chat_mock_response_uniform "hello" (by decide) none none 0 "t").2.1⟩

end EsriAppFinder
